import Mathlib

/-!
Verification of the cloudflare-ddns updater (src/main.rs).

The program keeps one DNS record in sync with the machine's public IP,
using a local cache file to avoid redundant provider calls.  We embed the
data model and the control flow of `main` (after configuration loading)
as pure Lean functions.  Time is modelled as an integer number of seconds
(`chrono::Duration::hours h` becomes `h * 3600` seconds); the network and
the filesystem are modelled as explicit oracles: each provider call takes
the decoded response (or a transport/decode error) as an argument, and
the run result records which provider calls were issued and which cache
snapshot, if any, was handed to `save_cache`.
-/

set_option autoImplicit false

namespace Ddns

/-- Decoded body of a JSON IP-echo service response (`struct IpResponse`). -/
structure IpResponse where
  ip : String
deriving DecidableEq

/-- One error object of the Cloudflare response envelope (`struct CloudflareError`). -/
structure CloudflareError where
  code : Nat
  message : String
deriving DecidableEq

/-- The Cloudflare response envelope (`struct CloudflareResponse<T>`). -/
structure CloudflareResponse (T : Type) where
  success : Bool
  errors : List CloudflareError
  messages : List String
  result : Option T

/-- A DNS record as returned by the provider (`struct DnsRecord`). -/
structure DnsRecord where
  id : String
  name : String
  content : String
  record_type : String
  ttl : Nat
deriving DecidableEq

/-- Payload of a record update request (`struct UpdateDnsRecord`). -/
structure UpdateDnsRecord where
  record_type : String
  name : String
  content : String
  ttl : Nat
deriving DecidableEq

/-- The persisted cache snapshot (`struct DnsCache`).  Timestamps are in
seconds (the unit is irrelevant as long as it is consistent). -/
structure DnsCache where
  record_name : String
  record_type : String
  ip_address : String
  last_checked : Int
  last_updated : Int
deriving DecidableEq

/-- `chrono::Duration::hours`, in seconds. -/
def duration_hours (h : Int) : Int :=
  h * 3600

namespace DnsCache

/-- `DnsCache::new`: both timestamps are initialised to the current time. -/
def new (record_name record_type ip_address : String) (now : Int) : DnsCache :=
  { record_name := record_name
    record_type := record_type
    ip_address := ip_address
    last_checked := now
    last_updated := now }

/-- `DnsCache::is_expired`: `Utc::now() - self.last_checked > Duration::hours(expiry_hours)`. -/
def is_expired (self : DnsCache) (now expiry_hours : Int) : Bool :=
  decide (now - self.last_checked > duration_hours expiry_hours)

/-- `DnsCache::matches_config`: exact equality on both identifying fields. -/
def matches_config (self : DnsCache) (record_name record_type : String) : Bool :=
  self.record_name == record_name && self.record_type == record_type

/-- `DnsCache::update_ip`: sets the address and refreshes both timestamps.
The two `Utc::now()` calls are modelled by two instants `t_upd ≤ t_chk`. -/
def update_ip (self : DnsCache) (new_ip : String) (t_upd t_chk : Int) : DnsCache :=
  { self with ip_address := new_ip, last_updated := t_upd, last_checked := t_chk }

/-- `DnsCache::update_checked`: refreshes only `last_checked`. -/
def update_checked (self : DnsCache) (now : Int) : DnsCache :=
  { self with last_checked := now }

/-- The documented invariant on snapshots: an update also counts as a check. -/
def invariant (self : DnsCache) : Prop :=
  self.last_updated ≤ self.last_checked

instance (c : DnsCache) : Decidable c.invariant := by
  unfold invariant; infer_instance

end DnsCache

/-- Concatenated "Code c: m" rendering of the envelope error list, joined
with ", " exactly as both client methods do. -/
def errorDetails (errors : List CloudflareError) : String :=
  String.intercalate ", "
    (errors.map (fun e => "Code " ++ toString e.code ++ ": " ++ e.message))

/-- Envelope validation of `CloudflareClient::get_dns_records`, applied to the
decoded response body: reject `success = false` with the concatenated error
list, then require a present `result`. -/
def get_dns_records (resp : CloudflareResponse (List DnsRecord)) :
    Except String (List DnsRecord) :=
  if !resp.success then
    .error ("Cloudflare API error: " ++ errorDetails resp.errors)
  else
    match resp.result with
    | some r => .ok r
    | none => .error "No result in response"

/-- Envelope validation of `CloudflareClient::update_dns_record`: reject
`success = false` with the concatenated error list; the `result` field is
never examined. -/
def update_dns_record (resp : CloudflareResponse DnsRecord) :
    Except String Unit :=
  if !resp.success then
    .error ("Failed to update DNS record: " ++ errorDetails resp.errors)
  else
    .ok ()

/-- A full `get_dns_records` call: the transport/JSON-decode layer may fail
(`response.json().await?`), otherwise the envelope is validated. -/
def get_dns_records_call (raw : Except String (CloudflareResponse (List DnsRecord))) :
    Except String (List DnsRecord) :=
  match raw with
  | .error e => .error e
  | .ok resp => get_dns_records resp

/-- A full `update_dns_record` call, with the transport/decode layer in front. -/
def update_dns_record_call (raw : Except String (CloudflareResponse DnsRecord)) :
    Except String Unit :=
  match raw with
  | .error e => .error e
  | .ok resp => update_dns_record resp

/-! ## IP resolver (`get_public_ip`) -/

/-- Outcome of one JSON IP-echo request, as observed by the loop body of
`get_public_ip`: the transport may fail (`Err(_) => continue`), the JSON
decode may fail (the `if let Ok` falls through), or an `ip` is produced. -/
inductive JsonFetch where
  | transportErr
  | decodeErr
  | okIp (ip : String)
deriving DecidableEq

/-- The ordered list of JSON-shaped IP services tried by `get_public_ip`. -/
def ip_services : List String :=
  ["https://api.ipify.org?format=json",
   "https://httpbin.org/ip",
   "https://api.myip.com"]

/-- The `for service in &ip_services` loop: return the `ip` of the first
service whose request and decode both succeed; otherwise fall through. -/
def tryJsonServices (oracle : String → JsonFetch) : List String → Option String
  | [] => none
  | s :: rest =>
    match oracle s with
    | .okIp ip => some ip
    | _ => tryJsonServices oracle rest

/-- Rust `str::trim`: strip leading and trailing whitespace. -/
def rust_trim (s : String) : String :=
  ⟨((s.data.dropWhile Char.isWhitespace).reverse.dropWhile Char.isWhitespace).reverse⟩

/-- `get_public_ip`: the JSON services in order, then the plain-text
fallback (`https://ipinfo.io/ip`) with a whitespace-trimmed body.  The
fallback oracle covers both `send().await?` and `text().await?`. -/
def get_public_ip (oracle : String → JsonFetch) (fallback : Except String String) :
    Except String String :=
  match tryJsonServices oracle ip_services with
  | some ip => .ok ip
  | none =>
    match fallback with
    | .ok body => .ok (rust_trim body)
    | .error e => .error e

/-! ## Configuration loading (the environment-variable prologue of `main`) -/

/-- Decimal digit accumulation: `none` as soon as a non-digit appears. -/
def parseNatDigits (cs : List Char) : Option Nat :=
  cs.foldl
    (fun acc c =>
      match acc with
      | none => none
      | some n => if c.isDigit then some (n * 10 + (c.toNat - 48)) else none)
    (some 0)

/-- Rust `u32::from_str`: optional leading plus sign, at least one digit,
value below 2^32. -/
def parse_u32 (s : String) : Option Nat :=
  let digits :=
    match s.data with
    | c :: rest => if c = '+' then rest else s.data
    | [] => []
  match digits with
  | [] => none
  | _ =>
    match parseNatDigits digits with
    | none => none
    | some n => if n < 4294967296 then some n else none

/-- Rust `i64::from_str`: optional sign, at least one digit, value within
the i64 range. -/
def parse_i64 (s : String) : Option Int :=
  let neg : Bool :=
    match s.data with
    | c :: _ => c == '-'
    | [] => false
  let digits :=
    match s.data with
    | c :: rest => if c == '-' || c == '+' then rest else s.data
    | [] => []
  match digits with
  | [] => none
  | _ =>
    match parseNatDigits digits with
    | none => none
    | some n =>
      let v : Int := if neg then -(n : Int) else (n : Int)
      if -9223372036854775808 ≤ v ∧ v ≤ 9223372036854775807 then some v else none

/-- The configuration read once at startup. -/
structure Config where
  api_token : String
  zone_id : String
  record_name : String
  record_type : String
  ttl : Nat
  cache_expiry_hours : Int
deriving DecidableEq

/-- The environment-variable prologue of `main`: the three required
variables abort with a descriptive error when absent; the optional ones
fall back to defaults both when absent and when parsing fails
(`.parse().unwrap_or(default)`). -/
def loadConfig (getVar : String → Option String) : Except String Config :=
  match getVar "CLOUDFLARE_API_TOKEN" with
  | none => .error "CLOUDFLARE_API_TOKEN environment variable is required"
  | some api_token =>
    match getVar "CLOUDFLARE_ZONE_ID" with
    | none => .error "CLOUDFLARE_ZONE_ID environment variable is required"
    | some zone_id =>
      match getVar "DNS_RECORD_NAME" with
      | none => .error "DNS_RECORD_NAME environment variable is required"
      | some record_name =>
        let record_type := (getVar "DNS_RECORD_TYPE").getD "A"
        let ttl := (parse_u32 ((getVar "DNS_RECORD_TTL").getD "1")).getD 1
        let cache_expiry_hours :=
          (parse_i64 ((getVar "CACHE_EXPIRY_HOURS").getD "24")).getD 24
        .ok { api_token := api_token
              zone_id := zone_id
              record_name := record_name
              record_type := record_type
              ttl := ttl
              cache_expiry_hours := cache_expiry_hours }

/-! ## Sync orchestrator (the body of `main` after IP resolution and cache load) -/

/-- One provider API call, as recorded in a run trace. -/
inductive ProviderCall where
  | listRecords (name : String)
  | updateRecord (record_id : String) (data : UpdateDnsRecord)
deriving DecidableEq

/-- The oracles a run consumes: the current instant and the decoded
responses the provider would return to each call. -/
structure RunEnv where
  now : Int
  list_response : Except String (CloudflareResponse (List DnsRecord))
  update_response : Except String (CloudflareResponse DnsRecord)

/-- Observable outcome of a run: the process result, the provider calls
issued in order, and the snapshot handed to `save_cache` (none when no
write was attempted; write failures themselves are only logged). -/
structure RunResult where
  outcome : Except String Unit
  calls : List ProviderCall
  saved : Option DnsCache

/-- The cache-reconcile step of `main` (the `match cache.as_mut()` block):
a matching snapshot gets its `last_checked` refreshed; anything else is
replaced by a fresh snapshot seeded from the remote record content. -/
def reconcile_cache (cfg : Config) (cache0 : Option DnsCache)
    (remote_content : String) (now : Int) : Option DnsCache :=
  match cache0 with
  | some cached_data =>
    if cached_data.matches_config cfg.record_name cfg.record_type then
      some (cached_data.update_checked now)
    else
      some (DnsCache.new cfg.record_name cfg.record_type remote_content now)
  | none => some (DnsCache.new cfg.record_name cfg.record_type remote_content now)

/-- The Cloudflare phase of `main`: list records, pick the record of the
configured type, reconcile the cache, and update the record when the
remote content differs from the current IP. -/
def checkCloudflare (cfg : Config) (current_ip : String) (cache0 : Option DnsCache)
    (env : RunEnv) : RunResult :=
  match get_dns_records_call env.list_response with
  | .error e =>
    { outcome := .error e, calls := [.listRecords cfg.record_name], saved := none }
  | .ok records =>
    if records.isEmpty then
      { outcome := .error ("No DNS record found with name \x27" ++ cfg.record_name ++ "\x27")
        calls := [.listRecords cfg.record_name]
        saved := none }
    else
      match records.find? (fun r => r.record_type == cfg.record_type) with
      | none =>
        { outcome := .error ("No " ++ cfg.record_type ++ " record found with name \x27" ++
            cfg.record_name ++ "\x27")
          calls := [.listRecords cfg.record_name]
          saved := none }
      | some target_record =>
        let cache1 := reconcile_cache cfg cache0 target_record.content env.now
        if target_record.content == current_ip then
          let cache2 : Option DnsCache :=
            match cache1 with
            | some cached_data =>
              if cached_data.ip_address != current_ip then
                some (cached_data.update_ip current_ip env.now env.now)
              else
                some cached_data
            | none => none
          { outcome := .ok (), calls := [.listRecords cfg.record_name], saved := cache2 }
        else
          let update_data : UpdateDnsRecord :=
            { record_type := cfg.record_type
              name := cfg.record_name
              content := current_ip
              ttl := cfg.ttl }
          match update_dns_record_call env.update_response with
          | .error e =>
            { outcome := .error e
              calls := [.listRecords cfg.record_name,
                        .updateRecord target_record.id update_data]
              saved := none }
          | .ok _ =>
            let cache2 : Option DnsCache :=
              match cache1 with
              | some cached_data =>
                some (cached_data.update_ip current_ip env.now env.now)
              | none =>
                some (DnsCache.new cfg.record_name cfg.record_type current_ip env.now)
            { outcome := .ok ()
              calls := [.listRecords cfg.record_name,
                        .updateRecord target_record.id update_data]
              saved := cache2 }

/-- The decision part of `main`, starting after the public IP has been
resolved and the cache loaded: the only early exit is the fresh-cache-hit
branch; every other shape of cache falls through to `checkCloudflare`. -/
def runMain (cfg : Config) (current_ip : String) (cache0 : Option DnsCache)
    (env : RunEnv) : RunResult :=
  match cache0 with
  | some cached_data =>
    if cached_data.matches_config cfg.record_name cfg.record_type
        && !(cached_data.is_expired env.now cfg.cache_expiry_hours)
        && (cached_data.ip_address == current_ip) then
      { outcome := .ok (), calls := [], saved := none }
    else
      checkCloudflare cfg current_ip cache0 env
  | none => checkCloudflare cfg current_ip cache0 env

instance {e a : Type} [DecidableEq e] [DecidableEq a] : DecidableEq (Except e a) :=
  fun x y =>
    match x, y with
    | .error u, .error v => decidable_of_iff (u = v) (by simp)
    | .error _, .ok _ => isFalse (by simp)
    | .ok _, .error _ => isFalse (by simp)
    | .ok u, .ok v => decidable_of_iff (u = v) (by simp)

/-- The fresh-cache-hit condition of `main`, as one predicate: the loaded
snapshot matches the configured target, is not expired, and already holds
the freshly resolved IP. -/
def cache_hit (cfg : Config) (current_ip : String) (cache0 : Option DnsCache)
    (now : Int) : Bool :=
  match cache0 with
  | some cached_data =>
    cached_data.matches_config cfg.record_name cfg.record_type
      && !(cached_data.is_expired now cfg.cache_expiry_hours)
      && (cached_data.ip_address == current_ip)
  | none => false

/-! ## Concrete fixtures used to instantiate the theorems below -/

/-- A configuration targeting the A record of example.com. -/
def wCfg : Config :=
  { api_token := "token", zone_id := "zone", record_name := "example.com",
    record_type := "A", ttl := 1, cache_expiry_hours := 24 }

/-- A snapshot matching `wCfg`, last checked at instant 1000. -/
def wCache : DnsCache :=
  { record_name := "example.com", record_type := "A", ip_address := "203.0.113.5",
    last_checked := 1000, last_updated := 1000 }

/-- A remote A record whose content differs from the resolved IP used below. -/
def wRecordDiff : DnsRecord :=
  { id := "rid1", name := "example.com", content := "198.51.100.9",
    record_type := "A", ttl := 300 }

/-- A remote record of the wrong type. -/
def wRecordCname : DnsRecord :=
  { id := "rid2", name := "example.com", content := "other.example.net",
    record_type := "CNAME", ttl := 300 }

/-- An environment for a fresh-cache-hit run: the provider oracles are
never consulted. -/
def wEnvHit : RunEnv :=
  { now := 1500, list_response := .error "unused", update_response := .error "unused" }

/-- An environment for an expired-cache run whose remote record differs
and whose update succeeds (25 hours after `wCache.last_checked`). -/
def wEnvExpired : RunEnv :=
  { now := 91000
    list_response := .ok { success := true, errors := [], messages := [],
                           result := some [wRecordDiff] }
    update_response := .ok { success := true, errors := [], messages := [],
                             result := none } }

/-- An environment whose update call is rejected by the provider. -/
def wEnvUpdFail : RunEnv :=
  { now := 91000
    list_response := .ok { success := true, errors := [], messages := [],
                           result := some [wRecordDiff] }
    update_response := .ok { success := false
                             errors := [{ code := 1004, message := "DNS validation error" }]
                             messages := []
                             result := none } }

/-- An environment whose list call fails at the transport layer. -/
def wEnvListErr : RunEnv :=
  { now := 91000, list_response := .error "connection refused",
    update_response := .error "unused" }

/-- An environment returning only a CNAME record for an A-record target. -/
def wEnvCname : RunEnv :=
  { now := 91000
    list_response := .ok { success := true, errors := [], messages := [],
                           result := some [wRecordCname] }
    update_response := .error "unused" }

/-- An envelope with `success = false` and one error entry. -/
def wErrResp : CloudflareResponse (List DnsRecord) :=
  { success := false
    errors := [{ code := 9109, message := "Invalid access token" }]
    messages := []
    result := none }

/-- An envelope with `success = true` but no `result` payload. -/
def wNoResultResp : CloudflareResponse (List DnsRecord) :=
  { success := true, errors := [], messages := ["beta notice"], result := none }

/-- An IP-echo oracle where only the second JSON service answers. -/
def wOracle : String → JsonFetch := fun s =>
  if s = "https://httpbin.org/ip" then .okIp "203.0.113.5" else .transportErr

/-- An environment map whose optional numeric variables are unparseable. -/
def wGetVar : String → Option String := fun v =>
  if v = "CLOUDFLARE_API_TOKEN" then some "token"
  else if v = "CLOUDFLARE_ZONE_ID" then some "zone"
  else if v = "DNS_RECORD_NAME" then some "example.com"
  else if v = "DNS_RECORD_TTL" then some "auto"
  else if v = "CACHE_EXPIRY_HOURS" then some "later"
  else none

/-- The configuration `loadConfig` produces from `wGetVar`. -/
def wDefaultedCfg : Config :=
  { api_token := "token", zone_id := "zone", record_name := "example.com",
    record_type := "A", ttl := 1, cache_expiry_hours := 24 }

/-- `runMain` is the early fresh-cache-hit exit, else the Cloudflare phase. -/
theorem runMain_eq_if (cfg : Config) (current_ip : String) (cache0 : Option DnsCache)
    (env : RunEnv) :
    runMain cfg current_ip cache0 env =
      if cache_hit cfg current_ip cache0 env.now then
        { outcome := .ok (), calls := [], saved := none }
      else
        checkCloudflare cfg current_ip cache0 env := by
  cases cache0 <;> rfl

/-- Every branch of the Cloudflare phase records the `list_records` call. -/
theorem checkCloudflare_lists (cfg : Config) (current_ip : String)
    (cache0 : Option DnsCache) (env : RunEnv) :
    ProviderCall.listRecords cfg.record_name ∈
      (checkCloudflare cfg current_ip cache0 env).calls := by
  unfold checkCloudflare
  split
  · simp
  · split
    · simp
    · split
      · simp
      · split
        · simp
        · split <;> simp

/-- A successful `find?` splits its list at the first satisfying element. -/
theorem find_first_decomp {α : Type} (p : α → Bool) (l : List α) (a : α)
    (h : l.find? p = some a) :
    p a = true ∧ ∃ pre suf, l = pre ++ a :: suf ∧ ∀ x ∈ pre, p x = false := by
  induction l with
  | nil => simp at h
  | cons b t ih =>
    by_cases hb : p b = true
    · rw [List.find?_cons_of_pos _ hb] at h
      injection h with h
      subst h
      exact ⟨hb, [], t, rfl, by simp⟩
    · rw [List.find?_cons_of_neg _ hb] at h
      obtain ⟨hpa, pre, suf, heq, hall⟩ := ih h
      refine ⟨hpa, b :: pre, suf, by rw [heq]; rfl, ?_⟩
      intro x hx
      rcases List.mem_cons.mp hx with hx | hx
      · subst hx; exact eq_false_of_ne_true hb
      · exact hall x hx

/-- A failed transport/decode on the list call aborts the Cloudflare phase. -/
theorem checkCloudflare_list_error (cfg : Config) (current_ip : String)
    (cache0 : Option DnsCache) (env : RunEnv) (e : String)
    (hlist : get_dns_records_call env.list_response = .error e) :
    checkCloudflare cfg current_ip cache0 env =
      { outcome := .error e, calls := [.listRecords cfg.record_name], saved := none } := by
  unfold checkCloudflare
  rw [hlist]

/-- Zero returned records abort the Cloudflare phase. -/
theorem checkCloudflare_empty_records (cfg : Config) (current_ip : String)
    (cache0 : Option DnsCache) (env : RunEnv)
    (hlist : get_dns_records_call env.list_response = .ok []) :
    checkCloudflare cfg current_ip cache0 env =
      { outcome := .error ("No DNS record found with name \x27" ++ cfg.record_name ++ "\x27")
        calls := [.listRecords cfg.record_name]
        saved := none } := by
  unfold checkCloudflare
  rw [hlist]
  rfl

/-- No record of the configured type aborts the Cloudflare phase. -/
theorem checkCloudflare_no_type_match (cfg : Config) (current_ip : String)
    (cache0 : Option DnsCache) (env : RunEnv) (records : List DnsRecord)
    (hlist : get_dns_records_call env.list_response = .ok records)
    (hne : records ≠ [])
    (hfind : records.find? (fun r => r.record_type == cfg.record_type) = none) :
    checkCloudflare cfg current_ip cache0 env =
      { outcome := .error ("No " ++ cfg.record_type ++ " record found with name \x27" ++
          cfg.record_name ++ "\x27")
        calls := [.listRecords cfg.record_name]
        saved := none } := by
  have hie : records.isEmpty = false := by
    cases records with
    | nil => exact absurd rfl hne
    | cons a l => rfl
  unfold checkCloudflare
  rw [hlist]
  simp only [hie, Bool.false_eq_true, if_false, hfind]

/-- When the selected record's content differs from the current IP, the
Cloudflare phase records the `update_record` call. -/
theorem checkCloudflare_update_mem (cfg : Config) (current_ip : String)
    (cache0 : Option DnsCache) (env : RunEnv) (records : List DnsRecord)
    (target : DnsRecord)
    (hlist : get_dns_records_call env.list_response = .ok records)
    (hfind : records.find? (fun r => r.record_type == cfg.record_type) = some target)
    (hne : target.content ≠ current_ip) :
    ProviderCall.updateRecord target.id
        { record_type := cfg.record_type, name := cfg.record_name,
          content := current_ip, ttl := cfg.ttl } ∈
      (checkCloudflare cfg current_ip cache0 env).calls := by
  have hie : records.isEmpty = false := by
    cases records with
    | nil => simp at hfind
    | cons a l => rfl
  have hbeq : (target.content == current_ip) = false := by
    simp [hne]
  unfold checkCloudflare
  rw [hlist]
  simp only [hie, Bool.false_eq_true, if_false, hfind, hbeq]
  split <;> simp

/-- A failing `update_record` call aborts the Cloudflare phase without a
cache write. -/
theorem checkCloudflare_update_fail (cfg : Config) (current_ip : String)
    (cache0 : Option DnsCache) (env : RunEnv) (records : List DnsRecord)
    (target : DnsRecord) (e : String)
    (hlist : get_dns_records_call env.list_response = .ok records)
    (hfind : records.find? (fun r => r.record_type == cfg.record_type) = some target)
    (hne : target.content ≠ current_ip)
    (hupd : update_dns_record_call env.update_response = .error e) :
    checkCloudflare cfg current_ip cache0 env =
      { outcome := .error e
        calls := [.listRecords cfg.record_name,
                  .updateRecord target.id
                    { record_type := cfg.record_type, name := cfg.record_name,
                      content := current_ip, ttl := cfg.ttl }]
        saved := none } := by
  have hie : records.isEmpty = false := by
    cases records with
    | nil => simp at hfind
    | cons a l => rfl
  have hbeq : (target.content == current_ip) = false := by
    simp [hne]
  unfold checkCloudflare
  rw [hlist]
  simp only [hie, Bool.false_eq_true, if_false, hfind, hbeq, hupd]

/-- The JSON-service loop yields nothing exactly when no service yields an IP. -/
theorem tryJsonServices_eq_none_iff (oracle : String → JsonFetch) (l : List String) :
    tryJsonServices oracle l = none ↔ ∀ s ∈ l, ∀ j, oracle s ≠ .okIp j := by
  induction l with
  | nil => simp [tryJsonServices]
  | cons s t ih =>
    cases horacle : oracle s with
    | okIp ip => simp [tryJsonServices, horacle]
    | transportErr => simp [tryJsonServices, horacle, ih]
    | decodeErr => simp [tryJsonServices, horacle, ih]

/-- The JSON-service loop returns the IP of the first succeeding service. -/
theorem tryJsonServices_first (oracle : String → JsonFetch) (pre : List String)
    (s : String) (suf : List String) (ip : String)
    (hpre : ∀ x ∈ pre, ∀ j, oracle x ≠ .okIp j) (hs : oracle s = .okIp ip) :
    tryJsonServices oracle (pre ++ s :: suf) = some ip := by
  induction pre with
  | nil => simp [tryJsonServices, hs]
  | cons a t ih =>
    have ha : ∀ j, oracle a ≠ .okIp j := hpre a (by simp)
    have hrest : ∀ x ∈ t, ∀ j, oracle x ≠ .okIp j :=
      fun x hx => hpre x (by simp [hx])
    cases horacle : oracle a with
    | okIp j => exact absurd horacle (ha j)
    | transportErr =>
      simp only [List.cons_append, tryJsonServices, horacle]
      exact ih hrest
    | decodeErr =>
      simp only [List.cons_append, tryJsonServices, horacle]
      exact ih hrest

/-! ## Claims -/

/-- Claim C1: when the loaded snapshot matches the configured record name
and type, is not expired, and its `ip_address` equals the freshly resolved
public IP, the run terminates successfully with no provider call of any
kind and no cache write. -/
theorem C1_fresh_cache_hit (cfg : Config) (current_ip : String) (c : DnsCache)
    (env : RunEnv)
    (hm : c.matches_config cfg.record_name cfg.record_type = true)
    (he : c.is_expired env.now cfg.cache_expiry_hours = false)
    (hip : c.ip_address = current_ip) :
    runMain cfg current_ip (some c) env =
      { outcome := .ok (), calls := [], saved := none } := by
  rw [runMain_eq_if]
  have hhit : cache_hit cfg current_ip (some c) env.now = true := by
    simp [cache_hit, hm, he, hip]
  simp [hhit]

/-- Witness for C1: a matching, fresh, IP-equal snapshot yields a silent
successful run. -/
theorem C1_fresh_cache_hit_witness :
    wCache.matches_config wCfg.record_name wCfg.record_type = true
    ∧ wCache.is_expired wEnvHit.now wCfg.cache_expiry_hours = false
    ∧ wCache.ip_address = "203.0.113.5"
    ∧ runMain wCfg "203.0.113.5" (some wCache) wEnvHit =
        { outcome := .ok (), calls := [], saved := none } :=
  ⟨by decide, by decide, rfl,
    C1_fresh_cache_hit wCfg "203.0.113.5" wCache wEnvHit (by decide) (by decide) rfl⟩

/-- Claim C2: a snapshot that matches the target but is expired still
routes to the remote query (`list_records` is called, whatever the cached
IP is), and when the selected remote record's content differs from the
resolved IP the `update_record` call is issued as well. -/
theorem C2_expired_cache_forces_recheck (cfg : Config) (current_ip : String)
    (c : DnsCache) (env : RunEnv)
    (_hm : c.matches_config cfg.record_name cfg.record_type = true)
    (he : c.is_expired env.now cfg.cache_expiry_hours = true) :
    ProviderCall.listRecords cfg.record_name ∈
      (runMain cfg current_ip (some c) env).calls
    ∧ (∀ (records : List DnsRecord) (target : DnsRecord),
        get_dns_records_call env.list_response = .ok records →
        records.find? (fun r => r.record_type == cfg.record_type) = some target →
        target.content ≠ current_ip →
        ProviderCall.updateRecord target.id
            { record_type := cfg.record_type, name := cfg.record_name,
              content := current_ip, ttl := cfg.ttl } ∈
          (runMain cfg current_ip (some c) env).calls) := by
  have hhit : cache_hit cfg current_ip (some c) env.now = false := by
    simp [cache_hit, he]
  rw [runMain_eq_if]
  simp only [hhit, Bool.false_eq_true, if_false]
  refine ⟨checkCloudflare_lists cfg current_ip (some c) env, ?_⟩
  intro records target hlist hfind hne
  exact checkCloudflare_update_mem cfg current_ip (some c) env records target hlist hfind hne

/-- Witness for C2: scenario D — the cached IP equals the resolved IP but
the cache is expired; the list call happens anyway and the differing
remote content triggers the update call. -/
theorem C2_expired_cache_forces_recheck_witness :
    wCache.matches_config wCfg.record_name wCfg.record_type = true
    ∧ wCache.is_expired wEnvExpired.now wCfg.cache_expiry_hours = true
    ∧ wCache.ip_address = "203.0.113.5"
    ∧ get_dns_records_call wEnvExpired.list_response = .ok [wRecordDiff]
    ∧ [wRecordDiff].find? (fun r => r.record_type == wCfg.record_type) = some wRecordDiff
    ∧ (wRecordDiff.content == "203.0.113.5") = false
    ∧ ProviderCall.listRecords wCfg.record_name ∈
        (runMain wCfg "203.0.113.5" (some wCache) wEnvExpired).calls
    ∧ ProviderCall.updateRecord wRecordDiff.id
        { record_type := wCfg.record_type, name := wCfg.record_name,
          content := "203.0.113.5", ttl := wCfg.ttl } ∈
        (runMain wCfg "203.0.113.5" (some wCache) wEnvExpired).calls :=
  ⟨by decide, by decide, rfl, rfl, by decide, by decide,
    (C2_expired_cache_forces_recheck wCfg "203.0.113.5" wCache wEnvExpired
      (by decide) (by decide)).1,
    (C2_expired_cache_forces_recheck wCfg "203.0.113.5" wCache wEnvExpired
      (by decide) (by decide)).2 [wRecordDiff] wRecordDiff rfl (by decide) (by decide)⟩

/-- Counterexample for C3: `update_dns_record` never inspects the `result`
field, so an envelope with `success = true` and an absent `result`
succeeds instead of failing with a "no result" error as the claim states
for both operations. -/
theorem C3_counterexample_update_ignores_result :
    update_dns_record { success := true, errors := [], messages := [], result := none } =
      .ok () := rfl

/-- Claim C3 (amended): both operations fail with the concatenated
"Code c: m" list when `success` is false; `get_dns_records` additionally
fails with "No result in response" when `success` is true and `result` is
absent, while `update_dns_record` ignores `result` and succeeds whenever
`success` is true; the informational `messages` never change any outcome. -/
theorem C3_envelope_validation :
    (∀ resp : CloudflareResponse (List DnsRecord), resp.success = false →
      get_dns_records resp = .error ("Cloudflare API error: " ++ errorDetails resp.errors))
    ∧ (∀ resp : CloudflareResponse (List DnsRecord), resp.success = true →
      resp.result = none → get_dns_records resp = .error "No result in response")
    ∧ (∀ (resp : CloudflareResponse (List DnsRecord)) (r : List DnsRecord),
      resp.success = true → resp.result = some r → get_dns_records resp = .ok r)
    ∧ (∀ resp : CloudflareResponse DnsRecord, resp.success = false →
      update_dns_record resp =
        .error ("Failed to update DNS record: " ++ errorDetails resp.errors))
    ∧ (∀ resp : CloudflareResponse DnsRecord, resp.success = true →
      update_dns_record resp = .ok ())
    ∧ (∀ (resp : CloudflareResponse (List DnsRecord)) (msgs : List String),
      get_dns_records { resp with messages := msgs } = get_dns_records resp)
    ∧ (∀ (resp : CloudflareResponse DnsRecord) (msgs : List String),
      update_dns_record { resp with messages := msgs } = update_dns_record resp) := by
  refine ⟨?_, ?_, ?_, ?_, ?_, ?_, ?_⟩
  · intro resp hs; simp [get_dns_records, hs]
  · intro resp hs hr; simp [get_dns_records, hs, hr]
  · intro resp r hs hr; simp [get_dns_records, hs, hr]
  · intro resp hs; simp [update_dns_record, hs]
  · intro resp hs; simp [update_dns_record, hs]
  · intro resp msgs; rfl
  · intro resp msgs; rfl

/-- Witness for C3: a failed envelope produces the concatenated error
message, and a success envelope without a payload fails the list call. -/
theorem C3_envelope_validation_witness :
    wErrResp.success = false
    ∧ get_dns_records wErrResp =
        .error "Cloudflare API error: Code 9109: Invalid access token"
    ∧ wNoResultResp.success = true
    ∧ wNoResultResp.result = none
    ∧ get_dns_records wNoResultResp = .error "No result in response" :=
  ⟨rfl, C3_envelope_validation.1 wErrResp rfl, rfl, rfl,
    C3_envelope_validation.2.1 wNoResultResp rfl rfl⟩

/-- Claim C4: at the reconcile step, a matching in-memory snapshot gets
only its `last_checked` refreshed (address and `last_updated` untouched);
any other shape is replaced by a new snapshot seeded with the remote
record's content and the current time in both timestamps. -/
theorem C4_reconcile_cache :
    (∀ (cfg : Config) (c : DnsCache) (remote_content : String) (now : Int),
      c.matches_config cfg.record_name cfg.record_type = true →
      reconcile_cache cfg (some c) remote_content now = some (c.update_checked now)
      ∧ (c.update_checked now).ip_address = c.ip_address
      ∧ (c.update_checked now).last_updated = c.last_updated
      ∧ (c.update_checked now).record_name = c.record_name
      ∧ (c.update_checked now).record_type = c.record_type
      ∧ (c.update_checked now).last_checked = now)
    ∧ (∀ (cfg : Config) (c : DnsCache) (remote_content : String) (now : Int),
      c.matches_config cfg.record_name cfg.record_type = false →
      reconcile_cache cfg (some c) remote_content now =
        some (DnsCache.new cfg.record_name cfg.record_type remote_content now))
    ∧ (∀ (cfg : Config) (remote_content : String) (now : Int),
      reconcile_cache cfg none remote_content now =
        some (DnsCache.new cfg.record_name cfg.record_type remote_content now))
    ∧ (∀ (name ty remote_content : String) (now : Int),
      (DnsCache.new name ty remote_content now).ip_address = remote_content
      ∧ (DnsCache.new name ty remote_content now).last_checked = now
      ∧ (DnsCache.new name ty remote_content now).last_updated = now) := by
  refine ⟨?_, ?_, ?_, ?_⟩
  · intro cfg c remote_content now hm
    simp [reconcile_cache, hm, DnsCache.update_checked]
  · intro cfg c remote_content now hm
    simp [reconcile_cache, hm]
  · intro cfg remote_content now
    rfl
  · intro name ty remote_content now
    exact ⟨rfl, rfl, rfl⟩

/-- Witness for C4: reconciling a matching snapshot only refreshes its
`last_checked`. -/
theorem C4_reconcile_cache_witness :
    wCache.matches_config wCfg.record_name wCfg.record_type = true
    ∧ reconcile_cache wCfg (some wCache) "198.51.100.9" 2000 =
        some (wCache.update_checked 2000)
    ∧ (wCache.update_checked 2000).ip_address = wCache.ip_address
    ∧ (wCache.update_checked 2000).last_updated = wCache.last_updated
    ∧ (wCache.update_checked 2000).record_name = wCache.record_name
    ∧ (wCache.update_checked 2000).record_type = wCache.record_type
    ∧ (wCache.update_checked 2000).last_checked = 2000 :=
  ⟨by decide, C4_reconcile_cache.1 wCfg wCache "198.51.100.9" 2000 (by decide)⟩

/-- Claim C5: when the `update_record` call fails, the run aborts with
that provider error and no cache write is attempted. -/
theorem C5_update_failure_aborts_without_save (cfg : Config) (current_ip : String)
    (cache0 : Option DnsCache) (env : RunEnv) (records : List DnsRecord)
    (target : DnsRecord) (e : String)
    (hhit : cache_hit cfg current_ip cache0 env.now = false)
    (hlist : get_dns_records_call env.list_response = .ok records)
    (hfind : records.find? (fun r => r.record_type == cfg.record_type) = some target)
    (hne : target.content ≠ current_ip)
    (hupd : update_dns_record_call env.update_response = .error e) :
    runMain cfg current_ip cache0 env =
      { outcome := .error e
        calls := [.listRecords cfg.record_name,
                  .updateRecord target.id
                    { record_type := cfg.record_type, name := cfg.record_name,
                      content := current_ip, ttl := cfg.ttl }]
        saved := none } := by
  rw [runMain_eq_if]
  simp only [hhit, Bool.false_eq_true, if_false]
  exact checkCloudflare_update_fail cfg current_ip cache0 env records target e
    hlist hfind hne hupd

/-- Witness for C5: a provider-rejected update aborts the run with the
concatenated error and performs no cache write. -/
theorem C5_update_failure_aborts_without_save_witness :
    cache_hit wCfg "203.0.113.5" none wEnvUpdFail.now = false
    ∧ get_dns_records_call wEnvUpdFail.list_response = .ok [wRecordDiff]
    ∧ [wRecordDiff].find? (fun r => r.record_type == wCfg.record_type) = some wRecordDiff
    ∧ (wRecordDiff.content == "203.0.113.5") = false
    ∧ update_dns_record_call wEnvUpdFail.update_response =
        .error "Failed to update DNS record: Code 1004: DNS validation error"
    ∧ runMain wCfg "203.0.113.5" none wEnvUpdFail =
        { outcome := .error "Failed to update DNS record: Code 1004: DNS validation error"
          calls := [.listRecords "example.com",
                    .updateRecord "rid1"
                      { record_type := "A", name := "example.com",
                        content := "203.0.113.5", ttl := 1 }]
          saved := none } :=
  ⟨rfl, rfl, by decide, by decide, rfl,
    C5_update_failure_aborts_without_save wCfg "203.0.113.5" none wEnvUpdFail
      [wRecordDiff] wRecordDiff
      "Failed to update DNS record: Code 1004: DNS validation error"
      rfl rfl (by decide) (by decide) rfl⟩

/-- Counterexample for C6: with `expiry_hours = 0` a snapshot whose
`last_checked` equals the current instant is NOT reported expired, so
"zero or negative H means every snapshot is reported expired" fails. -/
theorem C6_counterexample_zero_expiry :
    (DnsCache.new "example.com" "A" "203.0.113.5" 1000).is_expired 1000 0 = false := by
  decide

/-- Claim C6 (amended): `is_expired` is true iff the elapsed time strictly
exceeds `expiry_hours` whole hours (the argument is an integer, not
fractional); for zero or negative hours any snapshot checked strictly in
the past is expired, and at `H = 0` expiry holds exactly when
`last_checked` is strictly before the current instant. -/
theorem C6_is_expired_characterisation (c : DnsCache) (now h : Int) :
    (c.is_expired now h = true ↔ now - c.last_checked > duration_hours h)
    ∧ (h ≤ 0 → c.last_checked < now → c.is_expired now h = true)
    ∧ (c.is_expired now 0 = true ↔ c.last_checked < now) := by
  refine ⟨by simp [DnsCache.is_expired], ?_, ?_⟩
  · intro hh hc
    simp only [DnsCache.is_expired, duration_hours, decide_eq_true_eq]
    omega
  · simp only [DnsCache.is_expired, duration_hours, decide_eq_true_eq]
    omega

/-- Witness for C6: a negative expiry marks a past-checked snapshot
expired. -/
theorem C6_is_expired_characterisation_witness :
    ((-1 : Int) ≤ 0)
    ∧ wCache.last_checked < 200000
    ∧ wCache.is_expired 200000 (-1) = true :=
  ⟨by decide, by decide,
    (C6_is_expired_characterisation wCache 200000 (-1)).2.1 (by decide) (by decide)⟩

/-- Claim C7: once the remote query is reached, a failed list call, an
empty record list, or the absence of a record of the configured type each
abort the run without any `update_record` call; a successful selection
picks exactly the first record of the configured type. -/
theorem C7_remote_query_failures (cfg : Config) (current_ip : String)
    (cache0 : Option DnsCache) (env : RunEnv)
    (hhit : cache_hit cfg current_ip cache0 env.now = false) :
    (∀ e, get_dns_records_call env.list_response = .error e →
      runMain cfg current_ip cache0 env =
        { outcome := .error e, calls := [.listRecords cfg.record_name], saved := none })
    ∧ (get_dns_records_call env.list_response = .ok [] →
      runMain cfg current_ip cache0 env =
        { outcome := .error ("No DNS record found with name \x27" ++ cfg.record_name ++ "\x27")
          calls := [.listRecords cfg.record_name]
          saved := none })
    ∧ (∀ records : List DnsRecord,
        get_dns_records_call env.list_response = .ok records → records ≠ [] →
        records.find? (fun r => r.record_type == cfg.record_type) = none →
        runMain cfg current_ip cache0 env =
          { outcome := .error ("No " ++ cfg.record_type ++ " record found with name \x27" ++
              cfg.record_name ++ "\x27")
            calls := [.listRecords cfg.record_name]
            saved := none })
    ∧ (∀ (records : List DnsRecord) (target : DnsRecord),
        get_dns_records_call env.list_response = .ok records →
        records.find? (fun r => r.record_type == cfg.record_type) = some target →
        target.record_type = cfg.record_type
        ∧ ∃ pre suf, records = pre ++ target :: suf
            ∧ ∀ x ∈ pre, x.record_type ≠ cfg.record_type) := by
  have hrm : runMain cfg current_ip cache0 env = checkCloudflare cfg current_ip cache0 env := by
    rw [runMain_eq_if]
    simp only [hhit, Bool.false_eq_true, if_false]
  refine ⟨?_, ?_, ?_, ?_⟩
  · intro e hlist
    rw [hrm]
    exact checkCloudflare_list_error cfg current_ip cache0 env e hlist
  · intro hlist
    rw [hrm]
    exact checkCloudflare_empty_records cfg current_ip cache0 env hlist
  · intro records hlist hne hfind
    rw [hrm]
    exact checkCloudflare_no_type_match cfg current_ip cache0 env records hlist hne hfind
  · intro records target hlist hfind
    obtain ⟨hp, pre, suf, heq, hall⟩ :=
      find_first_decomp (fun r => r.record_type == cfg.record_type) records target hfind
    refine ⟨by simpa using hp, pre, suf, heq, ?_⟩
    intro x hx
    have := hall x hx
    simpa using this

/-- Witness for C7: a transport failure on the list call aborts the run,
and a CNAME-only answer for an A-record target aborts without any update
call. -/
theorem C7_remote_query_failures_witness :
    cache_hit wCfg "203.0.113.5" none wEnvListErr.now = false
    ∧ get_dns_records_call wEnvListErr.list_response = .error "connection refused"
    ∧ runMain wCfg "203.0.113.5" none wEnvListErr =
        { outcome := .error "connection refused"
          calls := [.listRecords "example.com"], saved := none }
    ∧ get_dns_records_call wEnvCname.list_response = .ok [wRecordCname]
    ∧ [wRecordCname].find? (fun r => r.record_type == wCfg.record_type) = none
    ∧ runMain wCfg "203.0.113.5" none wEnvCname =
        { outcome := .error "No A record found with name \x27example.com\x27"
          calls := [.listRecords "example.com"], saved := none } :=
  ⟨rfl, rfl,
    (C7_remote_query_failures wCfg "203.0.113.5" none wEnvListErr rfl).1
      "connection refused" rfl,
    rfl, by decide,
    (C7_remote_query_failures wCfg "203.0.113.5" none wEnvCname rfl).2.2.1
      [wRecordCname] rfl (by decide) (by decide)⟩

/-- Claim C8: `get_public_ip` returns the `ip` of the first JSON service
whose request and decode both succeed, skipping transport and decode
failures; with every JSON source failed it returns the trimmed plain-text
fallback body, and it fails exactly when all JSON sources fail and the
fallback fails too. -/
theorem C8_public_ip_resolution (oracle : String → JsonFetch)
    (fallback : Except String String) :
    (∀ (pre : List String) (s : String) (suf : List String) (ip : String),
      ip_services = pre ++ s :: suf →
      (∀ x ∈ pre, ∀ j, oracle x ≠ .okIp j) →
      oracle s = .okIp ip →
      get_public_ip oracle fallback = .ok ip)
    ∧ (∀ body : String,
      (∀ s ∈ ip_services, ∀ j, oracle s ≠ .okIp j) →
      fallback = .ok body →
      get_public_ip oracle fallback = .ok (rust_trim body))
    ∧ (∀ e : String, get_public_ip oracle fallback = .error e ↔
      ((∀ s ∈ ip_services, ∀ j, oracle s ≠ .okIp j) ∧ fallback = .error e)) := by
  refine ⟨?_, ?_, ?_⟩
  · intro pre s suf ip hsplit hpre hs
    unfold get_public_ip
    rw [hsplit, tryJsonServices_first oracle pre s suf ip hpre hs]
  · intro body hall hfb
    have hn : tryJsonServices oracle ip_services = none :=
      (tryJsonServices_eq_none_iff oracle ip_services).mpr hall
    unfold get_public_ip
    rw [hn, hfb]
  · intro e
    unfold get_public_ip
    cases htry : tryJsonServices oracle ip_services with
    | some ip =>
      have : ¬ (∀ s ∈ ip_services, ∀ j, oracle s ≠ .okIp j) := by
        intro hall
        rw [(tryJsonServices_eq_none_iff oracle ip_services).mpr hall] at htry
        exact Option.noConfusion htry
      simp [this]
    | none =>
      have hall : ∀ s ∈ ip_services, ∀ j, oracle s ≠ .okIp j :=
        (tryJsonServices_eq_none_iff oracle ip_services).mp htry
      cases fallback with
      | ok body => simp [hall]
      | error e2 =>
        constructor
        · intro hh
          exact ⟨hall, hh⟩
        · rintro ⟨-, hfb⟩
          exact hfb

/-- Witness for C8: with the first JSON service down, the second one's
answer is returned and the fallback is never needed. -/
theorem C8_public_ip_resolution_witness :
    ip_services =
      ["https://api.ipify.org?format=json"] ++
        "https://httpbin.org/ip" :: ["https://api.myip.com"]
    ∧ wOracle "https://api.ipify.org?format=json" = .transportErr
    ∧ wOracle "https://httpbin.org/ip" = .okIp "203.0.113.5"
    ∧ get_public_ip wOracle (.error "fallback down") = .ok "203.0.113.5" :=
  ⟨rfl, by decide, rfl,
    (C8_public_ip_resolution wOracle (.error "fallback down")).1
      ["https://api.ipify.org?format=json"] "https://httpbin.org/ip"
      ["https://api.myip.com"] "203.0.113.5" rfl
      (by
        intro x hx j hcon
        rcases List.mem_singleton.mp hx with rfl
        simp [wOracle] at hcon)
      rfl⟩

/-- Claim C9: `last_updated ≤ last_checked` is established by `new`
(both timestamps equal) and preserved by `update_checked` (which only
advances `last_checked`, given a non-decreasing clock) and by `update_ip`
(whose `last_updated` instant is no later than its `last_checked` one, as
the two `Utc::now()` calls occur in that order). -/
theorem C9_cache_timestamp_invariant :
    (∀ (name ty ip : String) (t : Int),
      (DnsCache.new name ty ip t).invariant
      ∧ (DnsCache.new name ty ip t).last_updated = (DnsCache.new name ty ip t).last_checked)
    ∧ (∀ (c : DnsCache) (t : Int), c.invariant → c.last_checked ≤ t →
      (c.update_checked t).invariant
      ∧ (c.update_checked t).last_checked = t
      ∧ c.last_checked ≤ (c.update_checked t).last_checked
      ∧ (c.update_checked t).last_updated = c.last_updated
      ∧ (c.update_checked t).ip_address = c.ip_address)
    ∧ (∀ (c : DnsCache) (ip : String) (t_upd t_chk : Int), t_upd ≤ t_chk →
      (c.update_ip ip t_upd t_chk).invariant
      ∧ (c.update_ip ip t_upd t_chk).ip_address = ip
      ∧ (c.update_ip ip t_upd t_chk).last_updated = t_upd
      ∧ (c.update_ip ip t_upd t_chk).last_checked = t_chk) := by
  refine ⟨?_, ?_, ?_⟩
  · intro name ty ip t
    exact ⟨le_refl _, rfl⟩
  · intro c t hinv hle
    refine ⟨?_, rfl, hle, rfl, rfl⟩
    simp only [DnsCache.invariant, DnsCache.update_checked] at hinv ⊢
    omega
  · intro c ip t_upd t_chk hle
    exact ⟨hle, rfl, rfl, rfl⟩

/-- Witness for C9: refreshing `last_checked` on a valid snapshot keeps
the invariant and leaves the other fields alone. -/
theorem C9_cache_timestamp_invariant_witness :
    wCache.invariant
    ∧ wCache.last_checked ≤ 2000
    ∧ (wCache.update_checked 2000).invariant
    ∧ (wCache.update_checked 2000).last_checked = 2000
    ∧ wCache.last_checked ≤ (wCache.update_checked 2000).last_checked
    ∧ (wCache.update_checked 2000).last_updated = wCache.last_updated
    ∧ (wCache.update_checked 2000).ip_address = wCache.ip_address :=
  ⟨by decide, by decide,
    C9_cache_timestamp_invariant.2.1 wCache 2000 (by decide) (by decide)⟩

/-- Claim C10: configuration loading succeeds exactly when the three
required variables are present; unparseable `DNS_RECORD_TTL` or
`CACHE_EXPIRY_HOURS` values silently fall back to the defaults 1 and 24
instead of aborting. -/
theorem C10_optional_env_defaults (getVar : String → Option String) :
    ((∃ c, loadConfig getVar = .ok c) ↔
      ((getVar "CLOUDFLARE_API_TOKEN").isSome = true
        ∧ (getVar "CLOUDFLARE_ZONE_ID").isSome = true
        ∧ (getVar "DNS_RECORD_NAME").isSome = true))
    ∧ (∀ (s : String) (c : Config),
      getVar "DNS_RECORD_TTL" = some s → parse_u32 s = none →
      loadConfig getVar = .ok c → c.ttl = 1)
    ∧ (∀ (s : String) (c : Config),
      getVar "CACHE_EXPIRY_HOURS" = some s → parse_i64 s = none →
      loadConfig getVar = .ok c → c.cache_expiry_hours = 24) := by
  refine ⟨?_, ?_, ?_⟩
  · cases h1 : getVar "CLOUDFLARE_API_TOKEN" with
    | none => simp [loadConfig, h1]
    | some tok =>
      cases h2 : getVar "CLOUDFLARE_ZONE_ID" with
      | none => simp [loadConfig, h1, h2]
      | some z =>
        cases h3 : getVar "DNS_RECORD_NAME" with
        | none => simp [loadConfig, h1, h2, h3]
        | some nm => simp [loadConfig, h1, h2, h3]
  · intro s c hs hparse hok
    cases h1 : getVar "CLOUDFLARE_API_TOKEN" with
    | none => rw [loadConfig, h1] at hok; exact Except.noConfusion hok
    | some tok =>
      cases h2 : getVar "CLOUDFLARE_ZONE_ID" with
      | none => rw [loadConfig, h1, h2] at hok; exact Except.noConfusion hok
      | some z =>
        cases h3 : getVar "DNS_RECORD_NAME" with
        | none => rw [loadConfig, h1, h2, h3] at hok; exact Except.noConfusion hok
        | some nm =>
          rw [loadConfig, h1, h2, h3] at hok
          simp only [hs, hparse, Option.getD_some, Option.getD_none] at hok
          injection hok with hc
          rw [← hc]
  · intro s c hs hparse hok
    cases h1 : getVar "CLOUDFLARE_API_TOKEN" with
    | none => rw [loadConfig, h1] at hok; exact Except.noConfusion hok
    | some tok =>
      cases h2 : getVar "CLOUDFLARE_ZONE_ID" with
      | none => rw [loadConfig, h1, h2] at hok; exact Except.noConfusion hok
      | some z =>
        cases h3 : getVar "DNS_RECORD_NAME" with
        | none => rw [loadConfig, h1, h2, h3] at hok; exact Except.noConfusion hok
        | some nm =>
          rw [loadConfig, h1, h2, h3] at hok
          simp only [hs, hparse, Option.getD_some, Option.getD_none] at hok
          injection hok with hc
          rw [← hc]

/-- Witness for C10: both optional variables set to unparseable values
still give a successful configuration with the defaults. -/
theorem C10_optional_env_defaults_witness :
    wGetVar "DNS_RECORD_TTL" = some "auto"
    ∧ parse_u32 "auto" = none
    ∧ wGetVar "CACHE_EXPIRY_HOURS" = some "later"
    ∧ parse_i64 "later" = none
    ∧ loadConfig wGetVar = .ok wDefaultedCfg
    ∧ wDefaultedCfg.ttl = 1
    ∧ wDefaultedCfg.cache_expiry_hours = 24 :=
  ⟨rfl, by decide, rfl, by decide, rfl,
    (C10_optional_env_defaults wGetVar).2.1 "auto" wDefaultedCfg rfl (by decide) rfl,
    (C10_optional_env_defaults wGetVar).2.2 "later" wDefaultedCfg rfl (by decide) rfl⟩

end Ddns
